import Mathlib

/-!
Verification of the avatar-synthesis pipeline of the
Personalized-Avatar-Fitting repository.

The definitions below are a shallow embedding of the Python code in
`services/ml/avatar_utils.py`, `services/ml/image_utils.py` and
`services/ml/workerrun.py` (the `3d using models` tree).  Images are
modelled as pixel functions, Python floats as rationals (with real-valued
square roots where `np.linalg.norm` is taken), Python exceptions as
`Option`/`Except` failure values, and file contents as character lists.
-/

namespace Avatar

/-! ### Basic pixel types -/

/-- An RGB colour, one natural number per 8-bit channel. -/
abbrev RGB := ℕ × ℕ × ℕ

/-- An RGBA colour (channels plus alpha). -/
abbrev RGBA := ℕ × ℕ × ℕ × ℕ

/-- A texture image: pixel colour at column `x`, row `y`.
The compositor only ever reads pixels inside the 512×512 canvas. -/
def Texture := ℕ → ℕ → RGB

/-- An RGBA overlay image (the garment, after `convert("RGBA")` and the
resize to the full texture canvas). -/
def Garment := ℕ → ℕ → RGBA

/-! ### TextureCompositor (`avatar_utils.fit_smplx_to_landmarks`, lines 52-123)

The compositing part of `fit_smplx_to_landmarks` builds a 512×512 texture:
base fill, optional face-crop paste, optional garment alpha-composite,
optional eye painting, then saves `texture_img`.

The embedding keeps track of PIL object identity: `draw =
ImageDraw.Draw(texture_img)` (line 58) binds the draw handle to the image
*object* current at that point, while line 100-102 rebind the *variable*
`texture_img` to freshly created images (`convert` and `alpha_composite`
return new objects).  `PILState.aliased` records whether the draw handle
and the variable still denote the same object. -/

/-- `texture_size = 512` (line 52). -/
def texture_size : ℕ := 512

/-- Line 55: `fill_color = (10, 10, 10)  # almost black` — the forced
debug constant used for the base fill. -/
def fill_color : RGB := (10, 10, 10)

/-- Side of the pasted face crop: `int(texture_size*0.28)` (line 75). -/
def face_crop_size : ℕ := texture_size * 28 / 100

/-- Face anchor: `(int(texture_size*0.5), int(texture_size*0.32))`
(lines 73-74). -/
def face_anchor : ℕ × ℕ := (texture_size * 50 / 100, texture_size * 32 / 100)

/-- Top-left corner of the pasted face crop (lines 76-77):
`face_x = uv_x - face_img.width//2`, `face_y = uv_y - face_img.height//2`. -/
def face_paste_corner : ℕ × ℕ :=
  (face_anchor.1 - face_crop_size / 2, face_anchor.2 - face_crop_size / 2)

/-- `texture_img.paste(face_img, (face_x, face_y))` (line 79): direct
overwrite of the square region by the resized face crop, no blending. -/
def paste_face (t : Texture) (face : Texture) : Texture := fun x y =>
  if face_paste_corner.1 ≤ x ∧ x < face_paste_corner.1 + face_crop_size ∧
     face_paste_corner.2 ≤ y ∧ y < face_paste_corner.2 + face_crop_size then
    face (x - face_paste_corner.1) (y - face_paste_corner.2)
  else t x y

/-- `Image.alpha_composite(texture_img, clothing)` (line 101) with the base
fully opaque (it was just converted from RGB): per channel
`out = (over*a + base*(255-a))/255`.  Integer floor division stands in for
PIL's rounding; the two agree at `a = 0` and `a = 255`, the only alpha
values any theorem below evaluates. -/
def alpha_composite (base : Texture) (over : Garment) : Texture := fun x y =>
  let o := over x y
  let b := base x y
  ((o.1 * o.2.2.2 + b.1 * (255 - o.2.2.2)) / 255,
   (o.2.1 * o.2.2.2 + b.2.1 * (255 - o.2.2.2)) / 255,
   (o.2.2.1 * o.2.2.2 + b.2.2 * (255 - o.2.2.2)) / 255)

/-- Eye radius: `int(texture_size * 0.03)` (line 113). -/
def eye_radius : ℕ := texture_size * 3 / 100

/-- Left eye anchor: `(int(texture_size*0.43), int(texture_size*0.32))`
(line 111). -/
def left_eye_uv : ℕ × ℕ := (texture_size * 43 / 100, texture_size * 32 / 100)

/-- Right eye anchor: `(int(texture_size*0.57), int(texture_size*0.32))`
(line 112). -/
def right_eye_uv : ℕ × ℕ := (texture_size * 57 / 100, texture_size * 32 / 100)

/-- Membership in the filled circle `draw.ellipse` rasterises into the
bounding box `[cx-r, cy-r, cx+r, cy+r]`.  PIL's exact boundary convention
is immaterial here: theorems only evaluate at the exact centres. -/
def in_eye_circle (c : ℕ × ℕ) (x y : ℕ) : Bool :=
  ((x : ℤ) - c.1) ^ 2 + ((y : ℤ) - c.2) ^ 2 ≤ (eye_radius : ℤ) ^ 2

/-- The two `draw.ellipse(..., fill=eye_color)` calls (lines 114-115). -/
def paint_eyes (t : Texture) (eye_color : RGB) : Texture := fun x y =>
  if in_eye_circle left_eye_uv x y ∨ in_eye_circle right_eye_uv x y then
    eye_color
  else t x y

/-- Inputs of the compositing block.  `face_crop` is present when face
detection, cropping and face landmarks all succeeded (lines 65-70);
`garment` is the decoded RGBA outfit image when a gender-keyed asset file
exists (lines 85-99); `skin_color` is the sampled-or-default skin colour
the function receives — the code never uses it for the base fill. -/
structure ComposeConfig where
  face_crop : Option Texture
  garment : Option Garment
  eye_color : Option RGB
  skin_color : Option RGB

/-- The two live image objects: `drawTarget` is the object the
`ImageDraw.Draw` handle points at, `texture_img` the object the variable
of that name currently denotes, `aliased` whether they are the same
object. -/
structure PILState where
  drawTarget : Texture
  texture_img : Texture
  aliased : Bool

/-- The texture the code saves (`texture_img.save`, line 123), built by
the four layer steps of lines 52-115. -/
def compose_texture (cfg : ComposeConfig) : Texture :=
  -- lines 57-58: texture_img = Image.new('RGB', ..., fill_color);
  -- draw = ImageDraw.Draw(texture_img)
  let base : Texture := fun _ _ => fill_color
  let st : PILState := ⟨base, base, true⟩
  -- line 79: texture_img.paste(face_img, ...) mutates the shared object
  let st : PILState :=
    match cfg.face_crop with
    | some f => ⟨paste_face st.drawTarget f, paste_face st.texture_img f, st.aliased⟩
    | none => st
  -- lines 100-102: texture_img = alpha_composite(convert(...), clothing)
  -- rebinds the variable to a new object; the draw handle keeps the old one
  let st : PILState :=
    match cfg.garment with
    | some g => ⟨st.drawTarget, alpha_composite st.texture_img g, false⟩
    | none => st
  -- lines 110-115: draw.ellipse mutates the object the handle points at
  let st : PILState :=
    match cfg.eye_color with
    | some c =>
        let d := paint_eyes st.drawTarget c
        ⟨d, if st.aliased then d else st.texture_img, st.aliased⟩
    | none => st
  st.texture_img

/-- Modelled from the spec: the layering `base → face → garment → eyes`
applied successively to a single buffer (spec §4.3), as the claim's
"layering order ... is respected" demands. -/
def compose_texture_spec (cfg : ComposeConfig) : Texture :=
  let t : Texture := fun _ _ => fill_color
  let t := match cfg.face_crop with
    | some f => paste_face t f
    | none => t
  let t := match cfg.garment with
    | some g => alpha_composite t g
    | none => t
  match cfg.eye_color with
  | some c => paint_eyes t c
  | none => t

/-- A fully opaque single-colour garment overlay covering the whole
canvas (so garment and eyes target overlapping pixels). -/
def garment_C1 : Garment := fun _ _ => (50, 60, 70, 255)

/-- Composition input for claim C1: garment overlay applied and an eye
colour supplied. -/
def cfg_C1 : ComposeConfig :=
  ⟨none, some garment_C1, some (200, 0, 0), none⟩

/-- Composition input for claim C2: no face detected, no garment asset
for the gender, no eye colour; the sampled-or-defaulted skin colour the
pipeline would pass along is the no-face default (198,134,66). -/
def cfg_C2 : ComposeConfig :=
  ⟨none, none, none, some (198, 134, 66)⟩

/-! ### MeasurementEstimator (`image_utils.estimate_body_measurements`)

One MediaPipe pose landmark: normalized coordinates.  Python floats
become rationals; `np.linalg.norm` becomes a real square root of the
rational sum of squares.  The Python `landmarks[i]` accesses raise
`IndexError` when the sequence is too short; the embedding returns
`none` in that case. -/

/-- A pose landmark: normalized `(x, y)`. -/
structure PoseLandmark where
  x : ℚ
  y : ℚ

/-- `get_xy(i)` (lines 82-84): `(lm.x * image_size[0], lm.y * image_size[1])`,
`none` when index `i` is out of range (Python `IndexError`). -/
def get_xy (landmarks : List PoseLandmark) (image_size : ℚ × ℚ) (i : ℕ) :
    Option (ℚ × ℚ) :=
  (landmarks.get? i).map fun lm => (lm.x * image_size.1, lm.y * image_size.2)

/-- Euclidean distance `np.linalg.norm(np.array(p) - np.array(q))`. -/
noncomputable def norm2 (p q : ℚ × ℚ) : ℝ :=
  Real.sqrt (((p.1 - q.1 : ℚ) : ℝ) ^ 2 + ((p.2 - q.2 : ℚ) : ℝ) ^ 2)

/-- The result dict of `estimate_body_measurements`. -/
structure BodyMeasurements where
  shoulder_width : ℝ
  hip_width : ℝ
  height : ℝ

/-- `estimate_body_measurements` (lines 67-99).  Landmark indices follow
the fixed MediaPipe schema: shoulders 11/12, hips 23/24, ankles 27/28.
`none` models the `IndexError` raised when an index is out of range. -/
noncomputable def estimate_body_measurements (landmarks : List PoseLandmark)
    (image_size : ℚ × ℚ) : Option BodyMeasurements :=
  (get_xy landmarks image_size 11).bind fun l_shoulder =>
  (get_xy landmarks image_size 12).bind fun r_shoulder =>
  (get_xy landmarks image_size 23).bind fun l_hip =>
  (get_xy landmarks image_size 24).bind fun r_hip =>
  (get_xy landmarks image_size 27).bind fun l_ankle =>
  (get_xy landmarks image_size 28).bind fun r_ankle =>
  let mid_shoulder : ℚ × ℚ :=
    ((l_shoulder.1 + r_shoulder.1) / 2, (l_shoulder.2 + r_shoulder.2) / 2)
  let mid_ankle : ℚ × ℚ :=
    ((l_ankle.1 + r_ankle.1) / 2, (l_ankle.2 + r_ankle.2) / 2)
  some ⟨norm2 l_shoulder r_shoulder, norm2 l_hip r_hip,
        norm2 mid_shoulder mid_ankle⟩

/-- The pixel-space point of landmark `i`, total version used to state
what the claim calls "the pixel-space points of landmarks i and j". -/
def pixel_of (landmarks : List PoseLandmark) (image_size : ℚ × ℚ) (i : ℕ) :
    ℚ × ℚ :=
  ((landmarks.getD i ⟨0, 0⟩).x * image_size.1,
   (landmarks.getD i ⟨0, 0⟩).y * image_size.2)

/-- Midpoint of two pixel points. -/
def mid (p q : ℚ × ℚ) : ℚ × ℚ := ((p.1 + q.1) / 2, (p.2 + q.2) / 2)

/-- The 33 synthetic pose landmarks of claim C3: shoulders (landmarks
11/12) at (0.4,0.3)/(0.6,0.3), ankles (landmarks 27/28) at
(0.45,0.9)/(0.55,0.9), every other landmark at the origin. -/
def landmarks_C3 : List PoseLandmark :=
  [⟨0, 0⟩, ⟨0, 0⟩, ⟨0, 0⟩, ⟨0, 0⟩, ⟨0, 0⟩, ⟨0, 0⟩, ⟨0, 0⟩, ⟨0, 0⟩,
   ⟨0, 0⟩, ⟨0, 0⟩, ⟨0, 0⟩,
   ⟨2/5, 3/10⟩, ⟨3/5, 3/10⟩,
   ⟨0, 0⟩, ⟨0, 0⟩, ⟨0, 0⟩, ⟨0, 0⟩, ⟨0, 0⟩, ⟨0, 0⟩, ⟨0, 0⟩, ⟨0, 0⟩,
   ⟨0, 0⟩, ⟨0, 0⟩, ⟨0, 0⟩, ⟨0, 0⟩, ⟨0, 0⟩, ⟨0, 0⟩,
   ⟨9/20, 9/10⟩, ⟨11/20, 9/10⟩,
   ⟨0, 0⟩, ⟨0, 0⟩, ⟨0, 0⟩, ⟨0, 0⟩]

/-! ### ColorSampler (`image_utils.extract_skin_color` / `extract_eye_color`)

The perception call `extract_face_landmarks(image_path)` is an external
collaborator; its result (dense mesh coordinates, the 4 box-corner
pseudo-landmarks, or `None`) is passed in as the `coords` argument.
`cv2.imread` yields pixels in BGR channel order; the image is modelled
as its shape plus a pixel function. -/

/-- An image as loaded by `cv2.imread`: `pix row col` is the BGR triple
at that position. -/
structure CvImage where
  h : ℕ
  w : ℕ
  pix : ℕ → ℕ → ℕ × ℕ × ℕ

/-- `range(-region_size, region_size)` as a list of integers. -/
def sample_offsets (region_size : ℕ) : List ℤ :=
  (List.range (2 * region_size)).map fun k => (k : ℤ) - region_size

/-- The window-sampling loop shared by skin and eye extraction
(image_utils.py lines 159-164 and 192-197): for each anchor point, every
pixel of the `2*region_size`-sided square window that lies inside the
image bounds, in loop order. -/
def window_colors (img : CvImage) (points : List (ℤ × ℤ)) (region_size : ℕ) :
    List (ℕ × ℕ × ℕ) :=
  points.flatMap fun p =>
    (sample_offsets region_size).flatMap fun dx =>
      (sample_offsets region_size).filterMap fun dy =>
        let nx := p.1 + dx
        let ny := p.2 + dy
        if 0 ≤ nx ∧ nx < (img.w : ℤ) ∧ 0 ≤ ny ∧ ny < (img.h : ℤ) then
          some (img.pix ny.toNat nx.toNat)
        else none

/-- `tuple(int(c) for c in np.mean(colors, axis=0))`: per-channel mean
truncated to an integer.  For natural-number channel values the
truncation of the mean is exactly floor division of the sum. -/
def trunc_mean (colors : List (ℕ × ℕ × ℕ)) : ℕ × ℕ × ℕ :=
  ((colors.map fun c => c.1).sum / colors.length,
   (colors.map fun c => c.2.1).sum / colors.length,
   (colors.map fun c => c.2.2).sum / colors.length)

/-- The fixed default skin tone of line 151: `(198, 134, 66)`. -/
def default_skin : ℕ × ℕ × ℕ := (198, 134, 66)

/-- `extract_skin_color` (lines 148-168).  `Except.error` models the
`IndexError` raised by `coords[234]`/`coords[454]` on a short landmark
list; `Except.ok none` is the code's `return None` when the window holds
no valid pixel. -/
def extract_skin_color (coords : Option (List (ℤ × ℤ))) (img : CvImage) :
    Except String (Option (ℕ × ℕ × ℕ)) :=
  match coords with
  | none => .ok (some default_skin)
  | some cs =>
      match cs.get? 234, cs.get? 454 with
      | some left_cheek, some right_cheek =>
          let colors := window_colors img [left_cheek, right_cheek] 10
          if colors.isEmpty then .ok none else .ok (some (trunc_mean colors))
      | _, _ => .error "IndexError"

/-- `extract_eye_color` (lines 170-203).  The iris indices 474/469 are
used when `len(coords) > max(474, 469)`; otherwise the four eye-mesh
fallback indices that are in range; `none` when there are no coords or
no sampled pixels.  (The guarded `getD` accesses can never hit the
default.) -/
def extract_eye_color (coords : Option (List (ℤ × ℤ))) (img : CvImage) :
    Option (ℕ × ℕ × ℕ) :=
  match coords with
  | none => none
  | some cs =>
      let sample_points : List (ℤ × ℤ) :=
        if 474 < cs.length then
          [cs.getD 474 (0, 0), cs.getD 469 (0, 0)]
        else
          (([33, 133, 362, 263] : List ℕ).filter fun i => i < cs.length).map
            fun i => cs.getD i (0, 0)
      let colors := window_colors img sample_points 5
      if colors.isEmpty then none else some (trunc_mean colors)

/-! ### MeshAssembler UV mapping (`avatar_utils.py` lines 9-11 and 131-133)

`uv[:,0] = (v[:,0] - v[:,0].min()) / (v[:,0].max() - v[:,0].min())` and
likewise for the y column.  NumPy float division by a zero denominator
does not raise; it produces non-finite values (nan/inf), modelled here as
`none`.  Only the x and y columns of the vertex array are read. -/

/-- NumPy float division: `none` models the non-finite (nan/inf) result
of a zero denominator. -/
def np_div (a b : ℚ) : Option ℚ := if b = 0 then none else some (a / b)

/-- `vertices[:, 0].min()` over the modelled `(x, y)` columns. -/
def col_min (f : ℚ × ℚ → ℚ) : List (ℚ × ℚ) → ℚ
  | [] => 0
  | v :: rest => rest.foldl (fun m w => min m (f w)) (f v)

/-- `vertices[:, 0].max()`. -/
def col_max (f : ℚ × ℚ → ℚ) : List (ℚ × ℚ) → ℚ
  | [] => 0
  | v :: rest => rest.foldl (fun m w => max m (f w)) (f v)

/-- The planar UV assignment exactly as written (no guard on the
denominator): per vertex `(u, v)` with
`u = (x - x_min)/(x_max - x_min)`, `v = (y - y_min)/(y_max - y_min)`. -/
def assign_uv (vertices : List (ℚ × ℚ)) : List (Option ℚ × Option ℚ) :=
  let x_min := col_min (fun v => v.1) vertices
  let x_max := col_max (fun v => v.1) vertices
  let y_min := col_min (fun v => v.2) vertices
  let y_max := col_max (fun v => v.2) vertices
  vertices.map fun v =>
    (np_div (v.1 - x_min) (x_max - x_min), np_div (v.2 - y_min) (y_max - y_min))

/-- Modelled from the spec: the guarded UV computation the claim
describes — "the zero denominator is guarded explicitly (e.g., treated
as 1)" (spec §4.4). -/
def assign_uv_guarded (vertices : List (ℚ × ℚ)) : List (ℚ × ℚ) :=
  let x_min := col_min (fun v => v.1) vertices
  let x_max := col_max (fun v => v.1) vertices
  let y_min := col_min (fun v => v.2) vertices
  let y_max := col_max (fun v => v.2) vertices
  let dx := if x_max - x_min = 0 then 1 else x_max - x_min
  let dy := if y_max - y_min = 0 then 1 else y_max - y_min
  vertices.map fun v => ((v.1 - x_min) / dx, (v.2 - y_min) / dy)

/-- The degenerate vertex set of claim C4: all x coordinates equal. -/
def vertices_C4 : List (ℚ × ℚ) := [(1, 2), (1, 5)]

/-! ### MeshAssembler visuals (`avatar_utils.py` lines 134-142)

`trimesh` mesh visuals: either a `ColorVisuals` (optionally carrying
per-vertex colours) or a `TextureVisuals` (UV coordinates plus a texture
image, no vertex colours). -/

/-- A `trimesh` visual attached to the mesh. -/
inductive MeshVisual where
  | colorVisual (vertex_colors : Option (List RGBA))
  | textureVisual (uv : List (Option ℚ × Option ℚ)) (image : Texture)

/-- Whether the visual carries per-vertex colours. -/
def MeshVisual.hasVertexColors : MeshVisual → Bool
  | .colorVisual (some _) => true
  | _ => false

/-- Whether the visual carries a texture with UV coordinates. -/
def MeshVisual.hasTexture : MeshVisual → Bool
  | .textureVisual _ _ => true
  | _ => false

/-- Lines 134-142 of `fit_smplx_to_landmarks`: starting from the default
`ColorVisuals` of `trimesh.Trimesh`, the vertex colours are set when
`skin_color` is provided (`mesh.visual.vertex_colors = np.tile(...)`),
after which `mesh.visual = TextureVisuals(uv=uv, image=...)` rebinds the
whole visual. -/
def set_mesh_visuals (n_vertices : ℕ) (skin_color : Option RGB)
    (uv : List (Option ℚ × Option ℚ)) (texture : Texture) : MeshVisual :=
  let visual : MeshVisual := .colorVisual none
  let visual : MeshVisual :=
    match skin_color with
    | some c => .colorVisual (some (List.replicate n_vertices (c.1, c.2.1, c.2.2, 255)))
    | none => visual
  -- line 142 rebinds mesh.visual, discarding the colour visual just built
  let _ := visual
  MeshVisual.textureVisual uv texture

/-! ### ArtifactExporter tail (`avatar_utils.py` lines 143-160)

The OBJ write is wrapped in `try/except` whose handler only prints a
warning; the GLB export then runs regardless, and the function returns
the GLB path on its success, the OBJ path otherwise.  Outcomes of the
two file writes are passed in as `Except` values. -/

/-- `os.path.splitext(p)[0]`: the characters before the final `'.'`
(whole string when there is no dot; the POSIX corner cases for dotfiles
and dotted directories do not arise for the `*.obj` paths used here). -/
def splitext_base (p : List Char) : List Char :=
  match p.reverse.dropWhile (fun c => ¬ c = '.') with
  | [] => p
  | _ :: rev_base => rev_base.reverse

/-- Lines 143-160: the OBJ write failure is caught and only logged; the
GLB export decides the returned path.  A returned `.ok` means the
function returns normally (no exception escapes). -/
def export_tail (obj_write : Except String Unit) (glb_export : Except String Unit)
    (out_path : List Char) : Except String (List Char) :=
  -- lines 144-149: try: write OBJ ... except: print("[WARN] ...")
  let _ := obj_write
  -- line 152: glb_path = os.path.splitext(out_path)[0] + '.glb'
  let glb_path := splitext_base out_path ++ ".glb".toList
  -- lines 153-160
  match glb_export with
  | .ok _ => .ok glb_path
  | .error _ => .ok out_path

/-! ### Exported file contents (`avatar_utils.py` lines 124-147)

File contents are modelled as character lists.  The MTL writer emits a
single f-string; the OBJ writer emits the `mtllib`/`usemtl` header pair
before handing the file object to `mesh.export` which appends the
geometry records. -/

/-- `os.path.basename` for POSIX separators: the characters after the
last `'/'`. -/
def os_path_basename (p : List Char) : List Char :=
  p.foldl (fun acc c => if c = '/' then [] else acc ++ [c]) []

/-- The material file body written at line 129:
`"newmtl skin\nKa 1.0 1.0 1.0\nKd 1.0 1.0 1.0\nKs 0.0 0.0 0.0\nd 1.0\nillum 2\nmap_Kd {texture_name}\n"`. -/
def mtl_file (texture_name : List Char) : List Char :=
  ("newmtl skin\nKa 1.0 1.0 1.0\nKd 1.0 1.0 1.0\nKs 0.0 0.0 0.0\nd 1.0\nillum 2\nmap_Kd ").toList
    ++ texture_name ++ "\n".toList

/-- The material file as written for a given texture path:
`texture_name = os.path.basename(user_image_path)` (line 127). -/
def write_mtl (user_image_path : List Char) : List Char :=
  mtl_file (os_path_basename user_image_path)

/-- The OBJ file: `obj_file.write(f"mtllib {mtl_name}\nusemtl skin\n")`
(line 146) followed by the geometry records `mesh.export` appends. -/
def obj_file (mtl_name geometry : List Char) : List Char :=
  "mtllib ".toList ++ mtl_name ++ "\nusemtl skin\n".toList ++ geometry

/-- Text split at newline characters; a trailing newline yields a final
empty line, matching how a line-orientated MTL/OBJ consumer reads the
file.  The result is always nonempty. -/
def split_lines : List Char → List (List Char)
  | [] => [[]]
  | c :: cs =>
      let r := split_lines cs
      if c = '\n' then [] :: r else (c :: r.headI) :: r.tail

/-! ### Debug-artifact naming (`image_utils.py` lines 61-64,
`workerrun.py` lines 135-140)

`image_path.replace('.jpg', S).replace('.jpeg', S).replace('.png', S)`.
Python `str.replace` rewrites every non-overlapping occurrence, scanning
left to right.  `replace_aux` is that scan, fuelled by the input length
(each step consumes at least one character, so `xs.length` fuel always
suffices). -/

/-- `begins pat xs` decides whether `pat` is an initial segment of `xs`. -/
def begins : List Char → List Char → Bool
  | [], _ => true
  | _ :: _, [] => false
  | p :: ps, c :: cs => if p = c then begins ps cs else false

/-- The left-to-right replacement scan of Python `str.replace`. -/
def replace_aux (pat rep : List Char) : ℕ → List Char → List Char
  | 0, xs => xs
  | _ + 1, [] => []
  | fuel + 1, c :: cs =>
      if begins pat (c :: cs) then
        rep ++ replace_aux pat rep fuel (List.drop pat.length (c :: cs))
      else
        c :: replace_aux pat rep fuel cs

/-- Python `xs.replace(pat, rep)`.  (The source only ever replaces the
nonempty literals `'.jpg'`, `'.jpeg'`, `'.png'`; the empty-pattern
behaviour of Python is not modelled.) -/
def py_replace (xs pat rep : List Char) : List Char :=
  if pat = [] then xs else replace_aux pat rep xs.length xs

/-- The body-mask preview path (image_utils.py line 61):
`image_path.replace('.jpg', '_bodymask.png').replace('.jpeg', '_bodymask.png').replace('.png', '_bodymask.png')`. -/
def bodymask_path (image_path : List Char) : List Char :=
  py_replace
    (py_replace
      (py_replace image_path ".jpg".toList "_bodymask.png".toList)
      ".jpeg".toList "_bodymask.png".toList)
    ".png".toList "_bodymask.png".toList

/-- The measurements dump path (image_utils.py line 63):
the same chain with suffix `'_measurements.txt'`. -/
def measurements_path (image_path : List Char) : List Char :=
  py_replace
    (py_replace
      (py_replace image_path ".jpg".toList "_measurements.txt".toList)
      ".jpeg".toList "_measurements.txt".toList)
    ".png".toList "_measurements.txt".toList

/-- Number of positions at which `pat` occurs in `xs` ("the suffix
appearing a single time" is `count_occ xs suffix = 1`). -/
def count_occ (xs pat : List Char) : ℕ :=
  ((List.range (xs.length + 1)).filter fun i => begins pat (List.drop i xs)).length

/-! ## Theorems -/

/-- **C1.**  The claim fails on the code: with a garment overlay applied
(fully opaque, covering the eye anchors) and an eye colour supplied, the
saved texture shows the garment colour — not the painted eye colour — at
both eye centres, while the spec's layering (base→face→garment→eyes on
one buffer) would show the eye colour there.  The `ImageDraw` handle of
line 58 still points at the pre-garment image after line 101 rebinds
`texture_img`, so the eye circles land on a discarded object. -/
theorem C1_eyes_behind_garment :
    compose_texture cfg_C1 left_eye_uv.1 left_eye_uv.2 = (50, 60, 70) ∧
    compose_texture cfg_C1 right_eye_uv.1 right_eye_uv.2 = (50, 60, 70) ∧
    compose_texture_spec cfg_C1 left_eye_uv.1 left_eye_uv.2 = (200, 0, 0) ∧
    compose_texture_spec cfg_C1 right_eye_uv.1 right_eye_uv.2 = (200, 0, 0) ∧
    ((50, 60, 70) : RGB) ≠ cfg_C1.eye_color.getD (0, 0, 0) := by
  refine ⟨by decide, by decide, by decide, by decide, by decide⟩

/-- **C2.**  In the no-face/no-garment/neutral-gender run every pixel of
the produced texture is the base fill — but the base fill is the forced
debug constant `(10,10,10)` of line 55, not the sampled-or-defaulted
skin colour `(198,134,66)` the run carries (`cfg_C2.skin_color`), which
the code never consults for the fill. -/
theorem C2_base_fill_forced_constant :
    (∀ x y, compose_texture cfg_C2 x y = fill_color) ∧
    cfg_C2.skin_color = some (198, 134, 66) ∧
    fill_color ≠ ((198, 134, 66) : RGB) := by
  exact ⟨fun _ _ => rfl, rfl, by decide⟩

/-- When index `i` is in range, `get_xy` yields the pixel-space point of
landmark `i`. -/
theorem get_xy_of_lt (landmarks : List PoseLandmark) (sz : ℚ × ℚ) (i : ℕ)
    (h : i < landmarks.length) :
    get_xy landmarks sz i = some (pixel_of landmarks sz i) := by
  have hg : landmarks.get? i = some (landmarks.getD i ⟨0, 0⟩) := by
    rw [List.get?_eq_getElem?, List.getElem?_eq_getElem h, List.getD_eq_getElem?_getD,
        List.getElem?_eq_getElem h]
    rfl
  simp only [get_xy, pixel_of, hg, Option.map_some']

/-- **C3.**  For every 33-element (indeed any ≥29-element) landmark list,
estimation succeeds and returns the Euclidean distance between the
pixel-space points of landmarks 11/12 as `shoulder_width`, of 23/24 as
`hip_width`, and between the shoulder midpoint and the 27/28 midpoint as
`height`; on the synthetic landmarks of the claim over a 1000×1000
image, `shoulder_width = 200` and `height = 600`. -/
theorem C3_measurements (landmarks : List PoseLandmark) (image_size : ℚ × ℚ)
    (h : 29 ≤ landmarks.length) :
    (∃ m, estimate_body_measurements landmarks image_size = some m ∧
      m.shoulder_width = norm2 (pixel_of landmarks image_size 11) (pixel_of landmarks image_size 12) ∧
      m.hip_width = norm2 (pixel_of landmarks image_size 23) (pixel_of landmarks image_size 24) ∧
      m.height = norm2 (mid (pixel_of landmarks image_size 11) (pixel_of landmarks image_size 12))
                       (mid (pixel_of landmarks image_size 27) (pixel_of landmarks image_size 28))) ∧
    (∃ m, estimate_body_measurements landmarks_C3 ((1000 : ℚ), (1000 : ℚ)) = some m ∧
      m.shoulder_width = 200 ∧ m.height = 600) := by
  constructor
  · have hE : estimate_body_measurements landmarks image_size =
        some ⟨norm2 (pixel_of landmarks image_size 11) (pixel_of landmarks image_size 12),
              norm2 (pixel_of landmarks image_size 23) (pixel_of landmarks image_size 24),
              norm2 (mid (pixel_of landmarks image_size 11) (pixel_of landmarks image_size 12))
                    (mid (pixel_of landmarks image_size 27) (pixel_of landmarks image_size 28))⟩ := by
      rw [estimate_body_measurements,
        get_xy_of_lt _ _ 11 (by omega), get_xy_of_lt _ _ 12 (by omega),
        get_xy_of_lt _ _ 23 (by omega), get_xy_of_lt _ _ 24 (by omega),
        get_xy_of_lt _ _ 27 (by omega), get_xy_of_lt _ _ 28 (by omega)]
      rfl
    exact ⟨_, hE, rfl, rfl, rfl⟩
  · have h11 : get_xy landmarks_C3 (1000, 1000) 11 = some (400, 300) := by
      simp [get_xy, landmarks_C3]; norm_num
    have h12 : get_xy landmarks_C3 (1000, 1000) 12 = some (600, 300) := by
      simp [get_xy, landmarks_C3]; norm_num
    have h23 : get_xy landmarks_C3 (1000, 1000) 23 = some (0, 0) := by
      simp [get_xy, landmarks_C3]
    have h24 : get_xy landmarks_C3 (1000, 1000) 24 = some (0, 0) := by
      simp [get_xy, landmarks_C3]
    have h27 : get_xy landmarks_C3 (1000, 1000) 27 = some (450, 900) := by
      simp [get_xy, landmarks_C3]; norm_num
    have h28 : get_xy landmarks_C3 (1000, 1000) 28 = some (550, 900) := by
      simp [get_xy, landmarks_C3]; norm_num
    have hE : estimate_body_measurements landmarks_C3 (1000, 1000) =
        some ⟨norm2 (400, 300) (600, 300), norm2 (0, 0) (0, 0),
              norm2 ((400 + 600) / 2, (300 + 300) / 2) ((450 + 550) / 2, (900 + 900) / 2)⟩ := by
      rw [estimate_body_measurements, h11, h12, h23, h24, h27, h28]
      rfl
    have hs : norm2 ((400 : ℚ), (300 : ℚ)) (600, 300) = 200 := by
      rw [norm2]
      norm_num
      rw [show ((40000 : ℝ)) = 200 ^ 2 by norm_num]
      exact Real.sqrt_sq (by norm_num)
    have hh : norm2 (((400 : ℚ) + 600) / 2, ((300 : ℚ) + 300) / 2)
        ((450 + 550) / 2, (900 + 900) / 2) = 600 := by
      rw [norm2]
      norm_num
      rw [show ((360000 : ℝ)) = 600 ^ 2 by norm_num]
      exact Real.sqrt_sq (by norm_num)
    exact ⟨_, hE, hs, hh⟩

/-- Witness for C3: the theorem applied at the claim's synthetic
landmark list on a 1000×1000 image. -/
theorem C3_measurements_witness :
    (∃ m, estimate_body_measurements landmarks_C3 ((1000 : ℚ), (1000 : ℚ)) = some m ∧
      m.shoulder_width = norm2 (pixel_of landmarks_C3 (1000, 1000) 11) (pixel_of landmarks_C3 (1000, 1000) 12) ∧
      m.hip_width = norm2 (pixel_of landmarks_C3 (1000, 1000) 23) (pixel_of landmarks_C3 (1000, 1000) 24) ∧
      m.height = norm2 (mid (pixel_of landmarks_C3 (1000, 1000) 11) (pixel_of landmarks_C3 (1000, 1000) 12))
                       (mid (pixel_of landmarks_C3 (1000, 1000) 27) (pixel_of landmarks_C3 (1000, 1000) 28))) ∧
    (∃ m, estimate_body_measurements landmarks_C3 ((1000 : ℚ), (1000 : ℚ)) = some m ∧
      m.shoulder_width = 200 ∧ m.height = 600) :=
  C3_measurements landmarks_C3 (1000, 1000) (by decide)

/-- **C4.**  The claim fails on the code: the planar UV computation has
no guard, so on a vertex set whose x coordinates are all equal the
denominator `x_max - x_min` is zero and the u components are non-finite
NumPy values (modelled `none`) — the division fault is propagated into
the UVs.  The guarded computation the claim describes (denominator
treated as 1) would instead complete with finite values. -/
theorem C4_uv_division_unguarded :
    assign_uv vertices_C4 = [(none, some 0), (none, some 1)] ∧
    assign_uv_guarded vertices_C4 = [(0, 0), (0, 1)] := by
  constructor
  · norm_num [assign_uv, col_min, col_max, np_div, vertices_C4]
  · norm_num [assign_uv_guarded, col_min, col_max, vertices_C4]

/-- **C5.**  The claim fails on the code: whenever a `skin_color` is
provided, line 142 rebinds `mesh.visual` to a fresh `TextureVisuals`,
discarding the per-vertex colours set at line 140 — the finished mesh
carries the texture channel but no per-vertex colour channel, so the two
channels are never simultaneously populated. -/
theorem C5_vertex_colors_discarded :
    ∀ (n_vertices : ℕ) (c : RGB) (uv : List (Option ℚ × Option ℚ)) (tex : Texture),
      set_mesh_visuals n_vertices (some c) uv tex = .textureVisual uv tex ∧
      (set_mesh_visuals n_vertices (some c) uv tex).hasVertexColors = false ∧
      (set_mesh_visuals n_vertices (some c) uv tex).hasTexture = true :=
  fun _ _ _ _ => ⟨rfl, rfl, rfl⟩

/-- **C6.**  When face-landmark extraction yields nothing at every tier
(`coords = none`), the sampler returns exactly the default skin tone
(198,134,66) and an absent eye colour, whatever the image contents. -/
theorem C6_no_face_defaults :
    ∀ img : CvImage,
      extract_skin_color none img = .ok (some (198, 134, 66)) ∧
      extract_eye_color none img = none :=
  fun _ => ⟨rfl, rfl⟩

/-- **C7.**  For every pose-landmark sequence shorter than 29 entries
measurement estimation fails — some required joint index among
11,12,23,24,27,28 is out of range, which in the code raises `IndexError`
(modelled as `none`) instead of returning a result. -/
theorem C7_short_landmarks_index_error
    (landmarks : List PoseLandmark) (image_size : ℚ × ℚ)
    (h : landmarks.length < 29) :
    estimate_body_measurements landmarks image_size = none := by
  have h28 : get_xy landmarks image_size 28 = none := by
    simp only [get_xy, Option.map_eq_none', List.get?_eq_none]
    omega
  unfold estimate_body_measurements
  rw [h28]
  cases get_xy landmarks image_size 11 <;>
    cases get_xy landmarks image_size 12 <;>
      cases get_xy landmarks image_size 23 <;>
        cases get_xy landmarks image_size 24 <;>
          cases get_xy landmarks image_size 27 <;>
            rfl

/-- Witness for C7 at a concrete 28-element landmark list. -/
theorem C7_short_landmarks_index_error_witness :
    estimate_body_measurements (List.replicate 28 ⟨0, 0⟩) ((1000 : ℚ), (1000 : ℚ)) = none :=
  C7_short_landmarks_index_error (List.replicate 28 ⟨0, 0⟩) (1000, 1000) (by decide)

/-- Splitting at a newline that follows a newline-free segment. -/
theorem split_lines_newline_append (xs rest : List Char) (h : '\n' ∉ xs) :
    split_lines (xs ++ '\n' :: rest) = xs :: split_lines rest := by
  induction xs with
  | nil => simp [split_lines]
  | cons c xs' ih =>
      have hc : ¬ c = '\n' := fun hc => h (hc ▸ List.mem_cons_self c xs')
      have h' : '\n' ∉ xs' := fun hm => h (List.mem_cons_of_mem _ hm)
      rw [List.cons_append]
      simp only [split_lines, ih h', if_neg hc, List.headI, List.tail_cons]

/-- Characters of the basename fold come from the accumulator or the
path. -/
theorem basename_fold_mem {c : Char} : ∀ (cs acc : List Char),
    c ∈ cs.foldl (fun acc ch => if ch = '/' then [] else acc ++ [ch]) acc →
      c ∈ acc ∨ c ∈ cs := by
  intro cs
  induction cs with
  | nil => intro acc h; exact Or.inl h
  | cons d cs' ih =>
      intro acc h
      rw [List.foldl_cons] at h
      rcases ih _ h with h' | h'
      · by_cases hd : d = '/'
        · rw [if_pos hd] at h'
          exact absurd h' (by simp)
        · rw [if_neg hd] at h'
          rcases List.mem_append.1 h' with h'' | h''
          · exact Or.inl h''
          · simp at h''
            subst h''
            exact Or.inr (List.mem_cons_self _ _)
      · exact Or.inr (List.mem_cons_of_mem _ h')

/-- Every character of `os.path.basename p` occurs in `p`. -/
theorem mem_of_mem_basename {c : Char} {p : List Char}
    (h : c ∈ os_path_basename p) : c ∈ p := by
  rcases basename_fold_mem p [] h with h' | h'
  · exact absurd h' (by simp)
  · exact h'

/-- The basename fold never retains a separator. -/
theorem no_slash_fold : ∀ (cs acc : List Char), '/' ∉ acc →
    '/' ∉ cs.foldl (fun acc ch => if ch = '/' then [] else acc ++ [ch]) acc := by
  intro cs
  induction cs with
  | nil => intro acc h; exact h
  | cons d cs' ih =>
      intro acc h
      rw [List.foldl_cons]
      apply ih
      by_cases hd : d = '/'
      · rw [if_pos hd]
        simp
      · rw [if_neg hd]
        intro hmem
        rcases List.mem_append.1 hmem with h' | h'
        · exact h h'
        · simp at h'
          exact hd h'.symm

/-- `os.path.basename` contains no directory separator. -/
theorem slash_not_mem_basename (p : List Char) : '/' ∉ os_path_basename p :=
  no_slash_fold p [] (by simp)

/-- **C8.**  Line structure of the exported files.  The mesh file begins
with the line `mtllib <material-filename>` followed by `usemtl skin`,
and everything after those two lines is exactly the geometry records.
The material file is a single block: `newmtl skin`, then `Ka`/`Kd`/`Ks`
(ambient/diffuse/specular) `1/1/0`, dissolve `d 1.0`, illumination model
`illum 2`, and a `map_Kd` texture reference that is
`os.path.basename(texture path)` — which contains no `/`, hence is the
filename only. -/
theorem C8_export_files (mtl_name geometry p : List Char)
    (hnl : '\n' ∉ mtl_name) (hp : '\n' ∉ p) :
    split_lines (write_mtl p) =
      ["newmtl skin".toList, "Ka 1.0 1.0 1.0".toList, "Kd 1.0 1.0 1.0".toList,
       "Ks 0.0 0.0 0.0".toList, "d 1.0".toList, "illum 2".toList,
       "map_Kd ".toList ++ os_path_basename p, []] ∧
    '/' ∉ os_path_basename p ∧
    (split_lines (obj_file mtl_name geometry)).take 2 =
      ["mtllib ".toList ++ mtl_name, "usemtl skin".toList] ∧
    (split_lines (obj_file mtl_name geometry)).drop 2 = split_lines geometry := by
  have hnft : '\n' ∉ os_path_basename p := fun hm => hp (mem_of_mem_basename hm)
  have hobj : split_lines (obj_file mtl_name geometry) =
      ("mtllib ".toList ++ mtl_name) :: "usemtl skin".toList :: split_lines geometry := by
    have hshape : obj_file mtl_name geometry =
        ("mtllib ".toList ++ mtl_name) ++ '\n' :: ("usemtl skin".toList ++ '\n' :: geometry) := by
      rw [obj_file]
      simp [List.append_assoc]
    rw [hshape,
      split_lines_newline_append _ _ (by
        intro hm
        rcases List.mem_append.1 hm with h' | h'
        · exact absurd h' (by decide)
        · exact hnl h'),
      split_lines_newline_append _ _ (by decide)]
  refine ⟨?_, slash_not_mem_basename p, ?_, ?_⟩
  · rw [write_mtl]
    have hshape : mtl_file (os_path_basename p) =
        "newmtl skin".toList ++ '\n' :: ("Ka 1.0 1.0 1.0".toList ++ '\n' ::
        ("Kd 1.0 1.0 1.0".toList ++ '\n' :: ("Ks 0.0 0.0 0.0".toList ++ '\n' ::
        ("d 1.0".toList ++ '\n' :: ("illum 2".toList ++ '\n' ::
        (("map_Kd ".toList ++ os_path_basename p) ++ '\n' :: [])))))) := rfl
    rw [hshape,
      split_lines_newline_append _ _ (by decide),
      split_lines_newline_append _ _ (by decide),
      split_lines_newline_append _ _ (by decide),
      split_lines_newline_append _ _ (by decide),
      split_lines_newline_append _ _ (by decide),
      split_lines_newline_append _ _ (by decide),
      split_lines_newline_append _ _ (by
        intro hm
        rcases List.mem_append.1 hm with h' | h'
        · exact absurd h' (by decide)
        · exact hnft h')]
    rfl
  · rw [hobj]
    rfl
  · rw [hobj]
    rfl

/-- Witness for C8 at a concrete material name, geometry block and
texture path. -/
theorem C8_export_files_witness :
    split_lines (write_mtl "avatars/photo.png".toList) =
      ["newmtl skin".toList, "Ka 1.0 1.0 1.0".toList, "Kd 1.0 1.0 1.0".toList,
       "Ks 0.0 0.0 0.0".toList, "d 1.0".toList, "illum 2".toList,
       "map_Kd ".toList ++ os_path_basename "avatars/photo.png".toList, []] ∧
    '/' ∉ os_path_basename "avatars/photo.png".toList ∧
    (split_lines (obj_file "avatar.mtl".toList "v 0.0 0.0 0.0\nf 1 1 1\n".toList)).take 2 =
      ["mtllib ".toList ++ "avatar.mtl".toList, "usemtl skin".toList] ∧
    (split_lines (obj_file "avatar.mtl".toList "v 0.0 0.0 0.0\nf 1 1 1\n".toList)).drop 2 =
      split_lines "v 0.0 0.0 0.0\nf 1 1 1\n".toList :=
  C8_export_files "avatar.mtl".toList "v 0.0 0.0 0.0\nf 1 1 1\n".toList
    "avatars/photo.png".toList (by decide) (by decide)

/-- A successful `begins` match pins down the first character. -/
theorem begins_head {c : Char} {ps l : List Char}
    (h : begins (c :: ps) l = true) : l.get? 0 = some c := by
  cases l with
  | nil => exact absurd h (by simp [begins])
  | cons a l' =>
      by_cases hca : c = a
      · subst hca; rfl
      · rw [begins, if_neg hca] at h
        exact absurd h (by simp)

/-- A pattern whose first character does not occur in `s` cannot match at
any position inside the `s` part of `s ++ t`. -/
theorem no_hit_of_head_not_mem {c : Char} (ps s t : List Char) (hc : c ∉ s) :
    ∀ i, i < s.length → begins (c :: ps) (List.drop i (s ++ t)) = false := by
  intro i hi
  cases hE : begins (c :: ps) (List.drop i (s ++ t)) with
  | false => rfl
  | true =>
      exfalso
      have hhead := begins_head hE
      have h1 : (s ++ t)[i]? = some c := by
        rw [List.get?_eq_getElem?, List.getElem?_drop] at hhead
        simpa using hhead
      have h2 : s.get? i = some c := by
        rw [List.get?_eq_getElem?, ← h1]
        exact (List.getElem?_append_left hi).symm
      exact hc (List.get?_mem h2)

/-- The replacement scan passes over a match-free region untouched. -/
theorem replace_aux_split (pat rep : List Char) (s t : List Char) :
    ∀ (fuel : ℕ), s.length + t.length ≤ fuel →
      (∀ i, i < s.length → begins pat (List.drop i (s ++ t)) = false) →
      replace_aux pat rep fuel (s ++ t) = s ++ replace_aux pat rep (fuel - s.length) t := by
  induction s with
  | nil => intro fuel _ _; simp
  | cons c s' ih =>
      intro fuel hf hno
      cases fuel with
      | zero => rw [List.length_cons] at hf; omega
      | succ f =>
          have h0 : begins pat (c :: (s' ++ t)) = false := by
            have := hno 0 (by simp)
            simpa using this
          have hno' : ∀ i, i < s'.length → begins pat (List.drop i (s' ++ t)) = false := by
            intro i hi
            have := hno (i + 1) (by simp; omega)
            simpa using this
          rw [List.cons_append]
          simp only [replace_aux, List.append_eq, h0, Bool.false_eq_true, if_false]
          rw [ih f (by rw [List.length_cons] at hf; omega) hno']
          simp [Nat.succ_sub_succ]

/-- Python `replace` on `s ++ t` only rewrites inside `t` when no
occurrence of the pattern starts inside `s`. -/
theorem py_replace_split (pat rep s t : List Char) (hpat : pat ≠ [])
    (hno : ∀ i, i < s.length → begins pat (List.drop i (s ++ t)) = false) :
    py_replace (s ++ t) pat rep = s ++ py_replace t pat rep := by
  rw [py_replace, py_replace, if_neg hpat, if_neg hpat]
  have := replace_aux_split pat rep s t ((s ++ t).length) (by simp) hno
  simpa [List.length_append] using this

/-- Occurrence counting over `s ++ t` reduces to counting in `t` when no
occurrence starts inside `s`. -/
theorem count_occ_append (pat s t : List Char)
    (hno : ∀ i, i < s.length → begins pat (List.drop i (s ++ t)) = false) :
    count_occ (s ++ t) pat = count_occ t pat := by
  rw [count_occ, count_occ, List.length_append]
  rw [show s.length + t.length + 1 = s.length + (t.length + 1) by omega]
  rw [List.range_add, List.filter_append]
  have h1 : (List.range s.length).filter (fun i => begins pat (List.drop i (s ++ t))) = [] := by
    rw [List.filter_eq_nil_iff]
    intro a ha
    rw [List.mem_range] at ha
    simp [hno a ha]
  rw [h1]
  have h2 : ((List.range (t.length + 1)).map (fun x => s.length + x)).filter
        (fun i => begins pat (List.drop i (s ++ t)))
      = ((List.range (t.length + 1)).filter (fun i => begins pat (List.drop i t))).map
        (fun x => s.length + x) := by
    rw [List.filter_map]
    congr 1
    apply List.filter_congr
    intro a _
    simp only [Function.comp]
    rw [List.drop_append]
  rw [h2]
  simp

/-- **C9 counterexample.**  On the claim's own example input `photo.jpg`
the body-mask path is `photo_bodymask_bodymask.png` — the `_bodymask`
suffix appears twice, not once, and the result is not the claimed
`photo_bodymask.png`: the final `.replace('.png', '_bodymask.png')` also
rewrites the `.png` that the earlier `.jpg` substitution introduced. -/
theorem C9_suffix_doubled :
    bodymask_path "photo.jpg".toList = "photo_bodymask_bodymask.png".toList ∧
    bodymask_path "photo.jpg".toList ≠ "photo_bodymask.png".toList ∧
    count_occ (bodymask_path "photo.jpg".toList) "_bodymask".toList = 2 :=
  ⟨by decide, by decide, by decide⟩

/-- **C9 amended.**  For input paths `stem ++ ext` whose stem contains no
`'.'` and no `'_'`: a `.png` input gets the body-mask suffix substituted
for the extension exactly once; `.jpg`/`.jpeg` inputs end with the
`_bodymask` suffix applied twice; the measurements path (whose suffix
contains no image extension) is substituted exactly once for all three
extensions. -/
theorem C9_suffix_substitution_amended (s : List Char)
    (hdot : '.' ∉ s) (hund : '_' ∉ s) :
    (bodymask_path (s ++ ".png".toList) = s ++ "_bodymask.png".toList ∧
     count_occ (bodymask_path (s ++ ".png".toList)) "_bodymask".toList = 1) ∧
    (bodymask_path (s ++ ".jpg".toList) = s ++ "_bodymask_bodymask.png".toList ∧
     count_occ (bodymask_path (s ++ ".jpg".toList)) "_bodymask".toList = 2) ∧
    (bodymask_path (s ++ ".jpeg".toList) = s ++ "_bodymask_bodymask.png".toList) ∧
    (measurements_path (s ++ ".jpg".toList) = s ++ "_measurements.txt".toList ∧
     count_occ (measurements_path (s ++ ".jpg".toList)) "_measurements".toList = 1) ∧
    (measurements_path (s ++ ".jpeg".toList) = s ++ "_measurements.txt".toList) ∧
    (measurements_path (s ++ ".png".toList) = s ++ "_measurements.txt".toList) := by
  have step : ∀ (ps t rep v : List Char),
      py_replace t ('.' :: ps) rep = v →
      py_replace (s ++ t) ('.' :: ps) rep = s ++ v := by
    intro ps t rep v hv
    rw [py_replace_split ('.' :: ps) rep s t (by simp) (no_hit_of_head_not_mem ps s t hdot), hv]
  have hpng : bodymask_path (s ++ ".png".toList) = s ++ "_bodymask.png".toList := by
    rw [bodymask_path]
    rw [show (".jpg".toList) = '.' :: "jpg".toList from rfl]
    rw [step "jpg".toList _ _ (".png".toList) (by decide)]
    rw [show (".jpeg".toList) = '.' :: "jpeg".toList from rfl]
    rw [step "jpeg".toList _ _ (".png".toList) (by decide)]
    rw [show (".png".toList) = '.' :: "png".toList from rfl]
    rw [step "png".toList _ _ ("_bodymask.png".toList) (by decide)]
  have hjpg : bodymask_path (s ++ ".jpg".toList) = s ++ "_bodymask_bodymask.png".toList := by
    rw [bodymask_path]
    rw [show (".jpg".toList) = '.' :: "jpg".toList from rfl]
    rw [step "jpg".toList _ _ ("_bodymask.png".toList) (by decide)]
    rw [show (".jpeg".toList) = '.' :: "jpeg".toList from rfl]
    rw [step "jpeg".toList _ _ ("_bodymask.png".toList) (by decide)]
    rw [show (".png".toList) = '.' :: "png".toList from rfl]
    rw [step "png".toList _ _ ("_bodymask_bodymask.png".toList) (by decide)]
  have hjpeg : bodymask_path (s ++ ".jpeg".toList) = s ++ "_bodymask_bodymask.png".toList := by
    rw [bodymask_path]
    rw [show (".jpg".toList) = '.' :: "jpg".toList from rfl]
    rw [step "jpg".toList _ _ (".jpeg".toList) (by decide)]
    rw [show (".jpeg".toList) = '.' :: "jpeg".toList from rfl]
    rw [step "jpeg".toList _ _ ("_bodymask.png".toList) (by decide)]
    rw [show (".png".toList) = '.' :: "png".toList from rfl]
    rw [step "png".toList _ _ ("_bodymask_bodymask.png".toList) (by decide)]
  have hmjpg : measurements_path (s ++ ".jpg".toList) = s ++ "_measurements.txt".toList := by
    rw [measurements_path]
    rw [show (".jpg".toList) = '.' :: "jpg".toList from rfl]
    rw [step "jpg".toList _ _ ("_measurements.txt".toList) (by decide)]
    rw [show (".jpeg".toList) = '.' :: "jpeg".toList from rfl]
    rw [step "jpeg".toList _ _ ("_measurements.txt".toList) (by decide)]
    rw [show (".png".toList) = '.' :: "png".toList from rfl]
    rw [step "png".toList _ _ ("_measurements.txt".toList) (by decide)]
  have hmjpeg : measurements_path (s ++ ".jpeg".toList) = s ++ "_measurements.txt".toList := by
    rw [measurements_path]
    rw [show (".jpg".toList) = '.' :: "jpg".toList from rfl]
    rw [step "jpg".toList _ _ (".jpeg".toList) (by decide)]
    rw [show (".jpeg".toList) = '.' :: "jpeg".toList from rfl]
    rw [step "jpeg".toList _ _ ("_measurements.txt".toList) (by decide)]
    rw [show (".png".toList) = '.' :: "png".toList from rfl]
    rw [step "png".toList _ _ ("_measurements.txt".toList) (by decide)]
  have hmpng : measurements_path (s ++ ".png".toList) = s ++ "_measurements.txt".toList := by
    rw [measurements_path]
    rw [show (".jpg".toList) = '.' :: "jpg".toList from rfl]
    rw [step "jpg".toList _ _ (".png".toList) (by decide)]
    rw [show (".jpeg".toList) = '.' :: "jpeg".toList from rfl]
    rw [step "jpeg".toList _ _ (".png".toList) (by decide)]
    rw [show (".png".toList) = '.' :: "png".toList from rfl]
    rw [step "png".toList _ _ ("_measurements.txt".toList) (by decide)]
  refine ⟨⟨hpng, ?_⟩, ⟨hjpg, ?_⟩, hjpeg, ⟨hmjpg, ?_⟩, hmjpeg, hmpng⟩
  · rw [hpng]
    rw [show ("_bodymask".toList) = '_' :: "bodymask".toList from rfl]
    rw [count_occ_append _ s _ (no_hit_of_head_not_mem "bodymask".toList s _ hund)]
    decide
  · rw [hjpg]
    rw [show ("_bodymask".toList) = '_' :: "bodymask".toList from rfl]
    rw [count_occ_append _ s _ (no_hit_of_head_not_mem "bodymask".toList s _ hund)]
    decide
  · rw [hmjpg]
    rw [show ("_measurements".toList) = '_' :: "measurements".toList from rfl]
    rw [count_occ_append _ s _ (no_hit_of_head_not_mem "measurements".toList s _ hund)]
    decide

/-- Witness for the amended C9 at the stem `photo`. -/
theorem C9_suffix_substitution_amended_witness :
    (bodymask_path ("photo".toList ++ ".png".toList) = "photo".toList ++ "_bodymask.png".toList ∧
     count_occ (bodymask_path ("photo".toList ++ ".png".toList)) "_bodymask".toList = 1) ∧
    (bodymask_path ("photo".toList ++ ".jpg".toList) = "photo".toList ++ "_bodymask_bodymask.png".toList ∧
     count_occ (bodymask_path ("photo".toList ++ ".jpg".toList)) "_bodymask".toList = 2) ∧
    (bodymask_path ("photo".toList ++ ".jpeg".toList) = "photo".toList ++ "_bodymask_bodymask.png".toList) ∧
    (measurements_path ("photo".toList ++ ".jpg".toList) = "photo".toList ++ "_measurements.txt".toList ∧
     count_occ (measurements_path ("photo".toList ++ ".jpg".toList)) "_measurements".toList = 1) ∧
    (measurements_path ("photo".toList ++ ".jpeg".toList) = "photo".toList ++ "_measurements.txt".toList) ∧
    (measurements_path ("photo".toList ++ ".png".toList) = "photo".toList ++ "_measurements.txt".toList) :=
  C9_suffix_substitution_amended "photo".toList (by decide) (by decide)

/-- **C10.**  A failure of the OBJ write is caught inside the exporter
and never propagated: the function still returns normally (`.ok`), with
the GLB path when the GLB export succeeds and the OBJ path otherwise,
and its return value is identical to that of a run whose OBJ write
succeeded — the caller cannot tell the two apart. -/
theorem C10_obj_failure_swallowed :
    ∀ (e : String) (glb_export : Except String Unit) (out_path : List Char),
      export_tail (.error e) glb_export out_path =
        export_tail (.ok ()) glb_export out_path ∧
      export_tail (.error e) glb_export out_path =
        .ok (match glb_export with
             | .ok _ => splitext_base out_path ++ ".glb".toList
             | .error _ => out_path) := by
  intro e glb_export out_path
  refine ⟨rfl, ?_⟩
  cases glb_export <;> rfl

end Avatar
